import Mathlib

/-!
Verification of the sensor-simulation and health-scoring core of the
HydroVision hydroponic monitoring dashboard (src/app.py).

The embedding follows the Python source closely:
* floating-point values are modelled as rationals (`ℚ`);
* `np.sin` and the diurnal factor `sin(2π·hour/24)`, being transcendental,
  are modelled by abstract functions carried in an `Env` record - every
  theorem below holds for every choice of these functions;
* each `np.random.normal` draw is an explicit `Noise` input;
* Python's `round(x, n)` (round half to even at `n` decimal digits) is
  modelled exactly on rationals by `pyRound`;
* the snapshot dictionaries are modelled both as structures (for the
  generator) and as partial key-value maps `Readings := String → Option ℚ`
  (for the scorer, whose dictionary lookups can fail with a `KeyError`,
  modelled as `Option.none`).
-/

namespace SystemConfig

def PH_TARGET : ℚ := 5.8
def PH_TOLERANCE : ℚ := 0.15
def PH_MIN : ℚ := PH_TARGET - PH_TOLERANCE
def PH_MAX : ℚ := PH_TARGET + PH_TOLERANCE

def EC_TARGET : ℚ := 1.2
def EC_TOLERANCE : ℚ := 0.08
def EC_MIN : ℚ := EC_TARGET - EC_TOLERANCE
def EC_MAX : ℚ := EC_TARGET + EC_TOLERANCE

def TEMP_MIN : ℚ := 18.0
def TEMP_MAX : ℚ := 22.0
def TEMP_OPTIMAL : ℚ := 20.0

def WATER_LEVEL_MIN : ℚ := 5.0
def WATER_LEVEL_MAX : ℚ := 15.0

end SystemConfig

/-- Round-half-to-even of a rational to the nearest integer, the rounding
mode of Python's built-in `round`. (`Rat.floor` is used rather than `⌊·⌋`
so that the definition evaluates by kernel reduction; they agree by
`ratFloor_eq_intFloor`.) -/
def hround (y : ℚ) : ℤ :=
  if y - y.floor < 1/2 then y.floor
  else if 1/2 < y - y.floor then y.floor + 1
  else if y.floor % 2 = 0 then y.floor else y.floor + 1

/-- Model of Python's `round(x, nd)` on rationals. -/
def pyRound (nd : ℕ) (x : ℚ) : ℚ :=
  (hround (x * 10 ^ nd) : ℚ) / 10 ^ nd

theorem ratFloor_eq_intFloor (y : ℚ) : y.floor = ⌊y⌋ := by
  rw [Rat.floor_def', Rat.floor_def]

theorem hround_eq (y : ℚ) :
    hround y = if y - ⌊y⌋ < 1/2 then ⌊y⌋
      else if 1/2 < y - ⌊y⌋ then ⌊y⌋ + 1
      else if ⌊y⌋ % 2 = 0 then ⌊y⌋ else ⌊y⌋ + 1 := by
  unfold hround
  rw [ratFloor_eq_intFloor]

theorem floor_le_hround (y : ℚ) : ⌊y⌋ ≤ hround y := by
  rw [hround_eq]; split_ifs <;> omega

theorem hround_le_floor_add_one (y : ℚ) : hround y ≤ ⌊y⌋ + 1 := by
  rw [hround_eq]; split_ifs <;> omega

theorem hround_intCast (k : ℤ) : hround (k : ℚ) = k := by
  rw [hround_eq]
  rw [Int.floor_intCast]
  simp

theorem hround_mono {y₁ y₂ : ℚ} (h : y₁ ≤ y₂) : hround y₁ ≤ hround y₂ := by
  rcases lt_or_eq_of_le (Int.floor_le_floor h) with hf | hf
  · calc hround y₁ ≤ ⌊y₁⌋ + 1 := hround_le_floor_add_one y₁
      _ ≤ ⌊y₂⌋ := by omega
      _ ≤ hround y₂ := floor_le_hround y₂
  · rw [hround_eq, hround_eq, hf]
    have hr : y₁ - ⌊y₂⌋ ≤ y₂ - ⌊y₂⌋ := by linarith
    split_ifs <;> first | omega | linarith

theorem pyRound_mono (nd : ℕ) {x₁ x₂ : ℚ} (h : x₁ ≤ x₂) :
    pyRound nd x₁ ≤ pyRound nd x₂ := by
  unfold pyRound
  have hp : (0:ℚ) < 10 ^ nd := by positivity
  have := hround_mono (mul_le_mul_of_nonneg_right h (le_of_lt hp))
  exact div_le_div_of_nonneg_right (by exact_mod_cast this) hp.le

/-- Abstract model of the transcendental functions used by the simulator:
`sin` stands for `np.sin` on the phase arguments, `diurnal` for
`np.sin(2·π·hour_of_day/24)` as a function of the hour, and `hourOf` for
extraction of the hour component from a timestamp (timestamps are modelled
as rationals). All theorems hold for every interpretation of these. -/
structure Env where
  sin : ℚ → ℚ
  diurnal : ℕ → ℚ
  hourOf : ℚ → ℕ

/-- One outcome of the `np.random.normal` draws made while producing a
single reading; each field is the value actually drawn. -/
structure Noise where
  ph : ℚ
  ec : ℚ
  water_temp : ℚ
  air_temp : ℚ
  humidity : ℚ
  water_level : ℚ
  battery : ℚ
deriving DecidableEq

/-- The configuration constants read by `DataSimulator.__init__`
(`SystemConfig` class attributes in the source). -/
structure Config where
  PH_TARGET : ℚ
  PH_TOLERANCE : ℚ
  EC_TARGET : ℚ
  EC_TOLERANCE : ℚ
  TEMP_MIN : ℚ
  TEMP_MAX : ℚ
  TEMP_OPTIMAL : ℚ
  WATER_LEVEL_MIN : ℚ
  WATER_LEVEL_MAX : ℚ
deriving DecidableEq

/-- The shipped configuration (the constant values in `SystemConfig`). -/
def defaultConfig : Config :=
  { PH_TARGET := SystemConfig.PH_TARGET
    PH_TOLERANCE := SystemConfig.PH_TOLERANCE
    EC_TARGET := SystemConfig.EC_TARGET
    EC_TOLERANCE := SystemConfig.EC_TOLERANCE
    TEMP_MIN := SystemConfig.TEMP_MIN
    TEMP_MAX := SystemConfig.TEMP_MAX
    TEMP_OPTIMAL := SystemConfig.TEMP_OPTIMAL
    WATER_LEVEL_MIN := SystemConfig.WATER_LEVEL_MIN
    WATER_LEVEL_MAX := SystemConfig.WATER_LEVEL_MAX }

/-- The mutable state of a `DataSimulator` instance. -/
structure SimState where
  step : ℕ
  start_time : ℚ
  ph_base : ℚ
  ec_base : ℚ
  temp_base : ℚ
deriving DecidableEq

/-- Model of `DataSimulator.__init__`: records the construction time, zeroes the
step counter and copies the three base targets from the configuration.
The source performs no validation of the configuration and cannot fail. -/
def DataSimulator_init (now : ℚ) (cfg : Config) : SimState :=
  { step := 0
    start_time := now
    ph_base := cfg.PH_TARGET
    ec_base := cfg.EC_TARGET
    temp_base := cfg.TEMP_OPTIMAL }

/-- Truncation toward zero, the behaviour of Python's `int()` on floats. -/
def ratTrunc (x : ℚ) : ℤ := if 0 ≤ x then x.floor else -((-x).floor)

/-- The dictionary returned by `DataSimulator.get_current_readings`,
as a structure with one field per key. -/
structure Snapshot where
  timestamp : ℚ
  pH : ℚ
  ec : ℚ
  water_temp : ℚ
  air_temp : ℚ
  humidity : ℚ
  water_level : ℚ
  battery_voltage : ℚ
  system_uptime : ℤ
deriving DecidableEq

/-- Model of `DataSimulator.get_current_readings`, translated line by line.
`now` is the wall-clock time of the call and `nz` the outcome of the
seven `np.random.normal` draws. Returns the snapshot together with the
updated simulator state. -/
def get_current_readings (env : Env) (now : ℚ) (nz : Noise) (st : SimState) :
    Snapshot × SimState :=
  let step : ℕ := st.step + 1
  let hour_of_day : ℕ := env.hourOf now
  let diurnal_factor : ℚ := env.diurnal hour_of_day
  let ph_drift : ℚ := env.sin ((step : ℚ) * 0.05) * 0.08
  let ph : ℚ := st.ph_base + ph_drift + nz.ph
  let ec_drift : ℚ := -0.001 * (step : ℚ) / 100
  let ec_variation : ℚ := env.sin ((step : ℚ) * 0.03) * 0.03
  let ec : ℚ := max 0.8 (st.ec_base + ec_drift + ec_variation + nz.ec)
  let temp_ambient_effect : ℚ := diurnal_factor * 1.5
  let water_temp : ℚ := st.temp_base + temp_ambient_effect + nz.water_temp
  let air_temp : ℚ := 25 + diurnal_factor * 4 + nz.air_temp
  let humidity : ℚ := 70 - diurnal_factor * 15 + nz.humidity
  let water_level0 : ℚ := 10 - (step : ℚ) * 0.01 + nz.water_level
  let water_level : ℚ := max 5 (min 15 water_level0)
  let battery_discharge : ℚ := -0.001 * (step : ℚ) / 100
  let battery_voltage : ℚ := max 11.0 (14.8 + battery_discharge + nz.battery)
  (⟨now, pyRound 2 ph, pyRound 2 ec, pyRound 1 water_temp, pyRound 1 air_temp,
    pyRound 1 humidity, pyRound 1 water_level, pyRound 2 battery_voltage,
    ratTrunc (now - st.start_time)⟩,
   { st with step := step })

/-- The simulator state after `n` successive calls to
`get_current_readings`, starting from `st0`; `times n` and `nzs n` are
the wall-clock time and the noise outcome of the `n`-th call. -/
def simTrace (env : Env) (times : ℕ → ℚ) (nzs : ℕ → Noise) (st0 : SimState) :
    ℕ → SimState
  | 0 => st0
  | n + 1 => (get_current_readings env (times n) (nzs n)
      (simTrace env times nzs st0 n)).2

/-- One row of the data frame built by `DataSimulator.get_historical_data`;
note the absence of `water_level`, `battery_voltage` and `system_uptime`. -/
structure HistRow where
  timestamp : ℚ
  pH : ℚ
  ec : ℚ
  water_temp : ℚ
  air_temp : ℚ
  humidity : ℚ
deriving DecidableEq

instance : Inhabited HistRow := ⟨⟨0, 0, 0, 0, 0, 0⟩⟩

/-- The body of the loop in `DataSimulator.get_historical_data` for loop
index `i`; `nzs i` is the outcome of that iteration's noise draws. -/
def histRow (env : Env) (nzs : ℕ → Noise) (now hours : ℚ) (points : ℕ)
    (i : ℕ) : HistRow :=
  let time_offset : ℚ := hours * (1 - (i : ℚ) / (points : ℚ))
  let timestamp : ℚ := now - time_offset
  let hour : ℕ := env.hourOf timestamp
  let diurnal : ℚ := env.diurnal hour
  let nz : Noise := nzs i
  { timestamp := timestamp
    pH := SystemConfig.PH_TARGET + env.sin ((i : ℚ) * 0.1) * 0.1 + nz.ph
    ec := SystemConfig.EC_TARGET + env.sin ((i : ℚ) * 0.08) * 0.05 + nz.ec
    water_temp := SystemConfig.TEMP_OPTIMAL + diurnal * 1.5 + nz.water_temp
    air_temp := 25 + diurnal * 4 + nz.air_temp
    humidity := 70 - diurnal * 15 + nz.humidity }

/-- Model of `DataSimulator.get_historical_data(hours, points)`: the list of rows
of the returned data frame, oldest first. -/
def get_historical_data (env : Env) (nzs : ℕ → Noise) (now hours : ℚ)
    (points : ℕ) : List HistRow :=
  (List.range points).map (histRow env nzs now hours points)

/-- Model of `SensorAnalyzer.assess_ph`: status band and message for a pH value. -/
def assess_ph (value : ℚ) : String × String :=
  if SystemConfig.PH_MIN ≤ value ∧ value ≤ SystemConfig.PH_MAX then
    ("optimal", "✓ Optimal range (5.8 ± 0.15)")
  else if value < SystemConfig.PH_MIN - 0.2 then
    ("danger", "⚠ Critically low! Add pH UP solution")
  else if value > SystemConfig.PH_MAX + 0.2 then
    ("danger", "⚠ Critically high! Add pH DOWN solution")
  else if value < SystemConfig.PH_MIN then
    ("warning", "↓ Below target. Monitor closely")
  else
    ("warning", "↑ Above target. Monitor closely")

/-- Model of `SensorAnalyzer.assess_ec`: status band and message for an EC value. -/
def assess_ec (value : ℚ) : String × String :=
  if SystemConfig.EC_MIN ≤ value ∧ value ≤ SystemConfig.EC_MAX then
    ("optimal", "✓ Optimal range (1.2 ± 0.08 mS/cm)")
  else if value < SystemConfig.EC_MIN - 0.1 then
    ("danger", "⚠ Critically low! Add nutrient solution")
  else if value > SystemConfig.EC_MAX + 0.1 then
    ("danger", "⚠ Critically high! Dilute solution")
  else if value < SystemConfig.EC_MIN then
    ("warning", "↓ Below target. Consider adding nutrients")
  else
    ("warning", "↑ Above target. Check concentration")

/-- Model of `SensorAnalyzer.assess_temperature`: status band and message for a
water-temperature value. -/
def assess_temperature (value : ℚ) : String × String :=
  if SystemConfig.TEMP_MIN ≤ value ∧ value ≤ SystemConfig.TEMP_MAX then
    ("optimal", "✓ Optimal range (18.0-22.0°C)")
  else if value < SystemConfig.TEMP_MIN - 2 then
    ("danger", "⚠ Too cold! Risk of slow growth")
  else if value > SystemConfig.TEMP_MAX + 2 then
    ("danger", "⚠ Too hot! Risk of root damage")
  else if value < SystemConfig.TEMP_MIN then
    ("warning", "↓ Below optimal. Consider heating")
  else
    ("warning", "↑ Above optimal. Improve cooling")

/-- The arithmetic of `SensorAnalyzer.calculate_system_health`, as a
function of the four dictionary values the method reads. -/
def calculate_system_health_vals (pH ec water_temp water_level : ℚ) :
    ℚ × String :=
  let ph_deviation : ℚ := |pH - SystemConfig.PH_TARGET| / SystemConfig.PH_TOLERANCE
  let ph_score : ℚ := max 0 (100 - ph_deviation * 50)
  let ec_deviation : ℚ := |ec - SystemConfig.EC_TARGET| / SystemConfig.EC_TOLERANCE
  let ec_score : ℚ := max 0 (100 - ec_deviation * 50)
  let temp_range : ℚ := SystemConfig.TEMP_MAX - SystemConfig.TEMP_MIN
  let temp_deviation : ℚ := |water_temp - SystemConfig.TEMP_OPTIMAL| / (temp_range / 2)
  let temp_score : ℚ := max 0 (100 - temp_deviation * 50)
  let water_score : ℚ :=
    if water_level < SystemConfig.WATER_LEVEL_MIN then 50
    else if water_level > SystemConfig.WATER_LEVEL_MAX then 70
    else 100
  let total_score : ℚ :=
    ph_score * 0.3 + ec_score * 0.3 + temp_score * 0.25 + water_score * 0.15
  let status : String :=
    if total_score ≥ 90 then "Excellent"
    else if total_score ≥ 75 then "Good"
    else if total_score ≥ 60 then "Fair"
    else "Critical"
  (pyRound 1 total_score, status)

/-- Model of the `readings` dictionary handed to the scorer: a partial
map from keys to numeric values; a missing key (`none`) is a `KeyError`. -/
def Readings : Type := String → Option ℚ

/-- Model of `SensorAnalyzer.calculate_system_health` over the dictionary model;
the four subscripted lookups happen unconditionally, so a missing key
aborts the computation (`none` = `KeyError`). -/
def calculate_system_health (readings : Readings) : Option (ℚ × String) := do
  let pH ← readings "pH"
  let ec ← readings "ec"
  let water_temp ← readings "water_temp"
  let water_level ← readings "water_level"
  pure (calculate_system_health_vals pH ec water_temp water_level)

/-- A readings dictionary holding exactly the four keys the scorer reads. -/
def mkReadings (p e t w : ℚ) : Readings := fun k =>
  if k = "pH" then some p
  else if k = "ec" then some e
  else if k = "water_temp" then some t
  else if k = "water_level" then some w
  else none

/-- The dictionary view of a live snapshot (the keys present in the
dictionary literal returned by `get_current_readings`). -/
def Snapshot.toReadings (s : Snapshot) : Readings := fun k =>
  if k = "timestamp" then some s.timestamp
  else if k = "pH" then some s.pH
  else if k = "ec" then some s.ec
  else if k = "water_temp" then some s.water_temp
  else if k = "air_temp" then some s.air_temp
  else if k = "humidity" then some s.humidity
  else if k = "water_level" then some s.water_level
  else if k = "battery_voltage" then some s.battery_voltage
  else if k = "system_uptime" then some (s.system_uptime : ℚ)
  else none

/-- The dictionary view of a historical row (the keys present in the
dictionary literal appended inside `get_historical_data`). -/
def HistRow.toReadings (r : HistRow) : Readings := fun k =>
  if k = "timestamp" then some r.timestamp
  else if k = "pH" then some r.pH
  else if k = "ec" then some r.ec
  else if k = "water_temp" then some r.water_temp
  else if k = "air_temp" then some r.air_temp
  else if k = "humidity" then some r.humidity
  else none

/-! ### Shared helper lemmas and concrete interpretations -/

/-- A concrete interpretation of the abstract transcendental functions,
used to instantiate universally quantified theorems at concrete inputs. -/
def envId : Env := ⟨fun q => q, fun _ => 0, fun _ => 0⟩

/-- The all-zero noise outcome. -/
def noise0 : Noise := ⟨0, 0, 0, 0, 0, 0, 0⟩

theorem mkReadings_pH (p e t w : ℚ) : mkReadings p e t w "pH" = some p := by
  unfold mkReadings; rw [if_pos rfl]

theorem mkReadings_ec (p e t w : ℚ) : mkReadings p e t w "ec" = some e := by
  unfold mkReadings; rw [if_neg (by decide), if_pos rfl]

theorem mkReadings_water_temp (p e t w : ℚ) :
    mkReadings p e t w "water_temp" = some t := by
  unfold mkReadings; rw [if_neg (by decide), if_neg (by decide), if_pos rfl]

theorem mkReadings_water_level (p e t w : ℚ) :
    mkReadings p e t w "water_level" = some w := by
  unfold mkReadings
  rw [if_neg (by decide), if_neg (by decide), if_neg (by decide), if_pos rfl]

theorem calculate_system_health_eq {r : Readings} {p e t w : ℚ}
    (h1 : r "pH" = some p) (h2 : r "ec" = some e)
    (h3 : r "water_temp" = some t) (h4 : r "water_level" = some w) :
    calculate_system_health r =
      some (calculate_system_health_vals p e t w) := by
  rw [calculate_system_health, h1, h2, h3, h4]
  rfl

theorem calculate_system_health_mkReadings (p e t w : ℚ) :
    calculate_system_health (mkReadings p e t w) =
      some (calculate_system_health_vals p e t w) :=
  calculate_system_health_eq (mkReadings_pH p e t w) (mkReadings_ec p e t w)
    (mkReadings_water_temp p e t w) (mkReadings_water_level p e t w)

theorem pyRound_zero (nd : ℕ) : pyRound nd 0 = 0 := by
  unfold pyRound
  rw [zero_mul, hround_eq]
  norm_num

theorem pyRound_one_hundred : pyRound 1 100 = 100 := by
  rw [pyRound, hround_eq]; norm_num

theorem pyRound_one_five : pyRound 1 5 = 5 := by
  rw [pyRound, hround_eq]; norm_num

theorem pyRound_one_fifteen : pyRound 1 15 = 15 := by
  rw [pyRound, hround_eq]; norm_num

theorem pyRound_two_eleven : pyRound 2 11 = 11 := by
  rw [pyRound, hround_eq]; norm_num

theorem pyRound_two_ec_floor : pyRound 2 0.8 = 0.8 := by
  rw [pyRound, hround_eq]; norm_num

/-- Each deviation-based sub-score of the scorer lies in `[0, 100]`. -/
theorem subscore_bounds (v target tol : ℚ) (htol : 0 ≤ tol) :
    0 ≤ max 0 (100 - |v - target| / tol * 50) ∧
      max 0 (100 - |v - target| / tol * 50) ≤ 100 := by
  have hd : (0:ℚ) ≤ |v - target| / tol * 50 := by positivity
  exact ⟨le_max_left _ _, max_le (by norm_num) (by linarith)⟩

/-- A larger absolute deviation gives a sub-score that is no higher. -/
theorem subscore_anti (target tol : ℚ) (htol : 0 < tol) {v v' : ℚ}
    (h : |v - target| ≤ |v' - target|) :
    max 0 (100 - |v' - target| / tol * 50) ≤
      max 0 (100 - |v - target| / tol * 50) := by
  have hd : |v - target| / tol ≤ |v' - target| / tol :=
    div_le_div_of_nonneg_right h htol.le
  have := mul_le_mul_of_nonneg_right hd (by norm_num : (0:ℚ) ≤ 50)
  exact max_le_max le_rfl (by linarith)

/-- C1: on a readings dictionary whose pH, conductivity and water
temperature are exactly at their targets and whose water level lies inside
the configured band, `calculate_system_health` returns score `100.0` and
status `"Excellent"`, whatever other keys the dictionary holds. -/
theorem health_at_targets_is_excellent (r : Readings) (w : ℚ)
    (h1 : r "pH" = some SystemConfig.PH_TARGET)
    (h2 : r "ec" = some SystemConfig.EC_TARGET)
    (h3 : r "water_temp" = some SystemConfig.TEMP_OPTIMAL)
    (h4 : r "water_level" = some w)
    (h5 : SystemConfig.WATER_LEVEL_MIN ≤ w)
    (h6 : w ≤ SystemConfig.WATER_LEVEL_MAX) :
    calculate_system_health r = some (100, "Excellent") := by
  rw [calculate_system_health_eq h1 h2 h3 h4]
  have hw1 : ¬ (w < SystemConfig.WATER_LEVEL_MIN) := not_lt.2 h5
  have hw2 : ¬ (w > SystemConfig.WATER_LEVEL_MAX) := not_lt.2 h6
  simp only [calculate_system_health_vals, hw1, hw2, if_false, sub_self,
    abs_zero, zero_div, zero_mul, sub_zero]
  norm_num [pyRound, hround_eq]

/-- C1 witness. -/
theorem health_at_targets_is_excellent_witness :
    calculate_system_health (mkReadings 5.8 1.2 20 10) = some (100, "Excellent") :=
  health_at_targets_is_excellent (mkReadings 5.8 1.2 20 10) 10
    (by rw [mkReadings_pH]; norm_num [SystemConfig.PH_TARGET])
    (by rw [mkReadings_ec]; norm_num [SystemConfig.EC_TARGET])
    (by rw [mkReadings_water_temp]; norm_num [SystemConfig.TEMP_OPTIMAL])
    (by rw [mkReadings_water_level])
    (by norm_num [SystemConfig.WATER_LEVEL_MIN])
    (by norm_num [SystemConfig.WATER_LEVEL_MAX])

/-- C2: on any readings dictionary supplying the four metrics (with any
rational values), `calculate_system_health` succeeds and returns a
composite score in `[0, 100]`. -/
theorem health_score_in_range (r : Readings) (p e t w : ℚ)
    (h1 : r "pH" = some p) (h2 : r "ec" = some e)
    (h3 : r "water_temp" = some t) (h4 : r "water_level" = some w) :
    ∃ s status, calculate_system_health r = some (s, status) ∧
      0 ≤ s ∧ s ≤ 100 := by
  refine ⟨(calculate_system_health_vals p e t w).1,
    (calculate_system_health_vals p e t w).2,
    by rw [calculate_system_health_eq h1 h2 h3 h4], ?_, ?_⟩ <;>
  · have hp := subscore_bounds p SystemConfig.PH_TARGET SystemConfig.PH_TOLERANCE
      (by norm_num [SystemConfig.PH_TOLERANCE])
    have he := subscore_bounds e SystemConfig.EC_TARGET SystemConfig.EC_TOLERANCE
      (by norm_num [SystemConfig.EC_TOLERANCE])
    have ht := subscore_bounds t SystemConfig.TEMP_OPTIMAL
      ((SystemConfig.TEMP_MAX - SystemConfig.TEMP_MIN) / 2)
      (by norm_num [SystemConfig.TEMP_MAX, SystemConfig.TEMP_MIN])
    have hw : (0:ℚ) ≤ (if w < SystemConfig.WATER_LEVEL_MIN then (50:ℚ)
          else if w > SystemConfig.WATER_LEVEL_MAX then 70 else 100) ∧
        (if w < SystemConfig.WATER_LEVEL_MIN then (50:ℚ)
          else if w > SystemConfig.WATER_LEVEL_MAX then 70 else 100) ≤ 100 := by
      split_ifs <;> norm_num
    simp only [calculate_system_health_vals]
    obtain ⟨hp1, hp2⟩ := hp
    obtain ⟨he1, he2⟩ := he
    obtain ⟨ht1, ht2⟩ := ht
    obtain ⟨hw1, hw2⟩ := hw
    first
    | calc (0:ℚ) = pyRound 1 0 := (pyRound_zero 1).symm
        _ ≤ _ := pyRound_mono 1 (by linarith)
    | calc _ ≤ pyRound 1 100 := pyRound_mono 1 (by linarith)
        _ = 100 := pyRound_one_hundred

/-- C2 witness. -/
theorem health_score_in_range_witness :
    ∃ s status, calculate_system_health (mkReadings 9 0 40 3) = some (s, status) ∧
      0 ≤ s ∧ s ≤ 100 :=
  health_score_in_range (mkReadings 9 0 40 3) 9 0 40 3
    (mkReadings_pH 9 0 40 3) (mkReadings_ec 9 0 40 3)
    (mkReadings_water_temp 9 0 40 3) (mkReadings_water_level 9 0 40 3)

theorem PH_MIN_eq : SystemConfig.PH_MIN = 5.65 := by
  norm_num [SystemConfig.PH_MIN, SystemConfig.PH_TARGET, SystemConfig.PH_TOLERANCE]

theorem PH_MAX_eq : SystemConfig.PH_MAX = 5.95 := by
  norm_num [SystemConfig.PH_MAX, SystemConfig.PH_TARGET, SystemConfig.PH_TOLERANCE]

theorem EC_MIN_eq : SystemConfig.EC_MIN = 1.12 := by
  norm_num [SystemConfig.EC_MIN, SystemConfig.EC_TARGET, SystemConfig.EC_TOLERANCE]

theorem EC_MAX_eq : SystemConfig.EC_MAX = 1.28 := by
  norm_num [SystemConfig.EC_MAX, SystemConfig.EC_TARGET, SystemConfig.EC_TOLERANCE]

theorem assess_ph_optimal_iff (v : ℚ) :
    (assess_ph v).1 = "optimal" ↔
      SystemConfig.PH_MIN ≤ v ∧ v ≤ SystemConfig.PH_MAX := by
  unfold assess_ph
  split_ifs with h1 h2 h3 h4
  · exact iff_of_true rfl h1
  · exact iff_of_false (by decide) h1
  · exact iff_of_false (by decide) h1
  · exact iff_of_false (by decide) h1
  · exact iff_of_false (by decide) h1

theorem assess_ph_danger_iff (v : ℚ) :
    (assess_ph v).1 = "danger" ↔
      v < SystemConfig.PH_MIN - 0.2 ∨ v > SystemConfig.PH_MAX + 0.2 := by
  unfold assess_ph
  split_ifs with h1 h2 h3 h4
  · refine iff_of_false (by decide) ?_
    rw [PH_MIN_eq, PH_MAX_eq] at h1
    obtain ⟨a, b⟩ := h1
    rw [PH_MIN_eq, PH_MAX_eq]
    rintro (hc | hc) <;> norm_num at hc <;> linarith
  · exact iff_of_true rfl (Or.inl h2)
  · exact iff_of_true rfl (Or.inr h3)
  · refine iff_of_false (by decide) ?_
    rintro (hc | hc)
    exacts [h2 hc, h3 hc]
  · refine iff_of_false (by decide) ?_
    rintro (hc | hc)
    exacts [h2 hc, h3 hc]

theorem assess_ph_warning_iff (v : ℚ) :
    (assess_ph v).1 = "warning" ↔
      ¬ (SystemConfig.PH_MIN ≤ v ∧ v ≤ SystemConfig.PH_MAX) ∧
      ¬ (v < SystemConfig.PH_MIN - 0.2 ∨ v > SystemConfig.PH_MAX + 0.2) := by
  unfold assess_ph
  split_ifs with h1 h2 h3 h4
  · exact iff_of_false (by decide) fun h => h.1 h1
  · exact iff_of_false (by decide) fun h => h.2 (Or.inl h2)
  · exact iff_of_false (by decide) fun h => h.2 (Or.inr h3)
  · refine iff_of_true rfl ⟨h1, ?_⟩
    rintro (hc | hc)
    exacts [h2 hc, h3 hc]
  · refine iff_of_true rfl ⟨h1, ?_⟩
    rintro (hc | hc)
    exacts [h2 hc, h3 hc]

theorem assess_ph_warning_msg (v : ℚ) (h : (assess_ph v).1 = "warning") :
    (v < SystemConfig.PH_MIN ∧
        (assess_ph v).2 = "↓ Below target. Monitor closely") ∨
    (SystemConfig.PH_MAX < v ∧
        (assess_ph v).2 = "↑ Above target. Monitor closely") := by
  unfold assess_ph at h ⊢
  split_ifs at h ⊢ with h1 h2 h3 h4
  · exact absurd h (by decide)
  · exact absurd h (by decide)
  · exact absurd h (by decide)
  · exact Or.inl ⟨h4, rfl⟩
  · push_neg at h4
    rcases not_and_or.mp h1 with hc | hc
    · exact absurd h4 hc
    · exact Or.inr ⟨lt_of_not_le hc, rfl⟩

theorem assess_ec_optimal_iff (v : ℚ) :
    (assess_ec v).1 = "optimal" ↔
      SystemConfig.EC_MIN ≤ v ∧ v ≤ SystemConfig.EC_MAX := by
  unfold assess_ec
  split_ifs with h1 h2 h3 h4
  · exact iff_of_true rfl h1
  · exact iff_of_false (by decide) h1
  · exact iff_of_false (by decide) h1
  · exact iff_of_false (by decide) h1
  · exact iff_of_false (by decide) h1

theorem assess_ec_danger_iff (v : ℚ) :
    (assess_ec v).1 = "danger" ↔
      v < SystemConfig.EC_MIN - 0.1 ∨ v > SystemConfig.EC_MAX + 0.1 := by
  unfold assess_ec
  split_ifs with h1 h2 h3 h4
  · refine iff_of_false (by decide) ?_
    rw [EC_MIN_eq, EC_MAX_eq] at h1
    obtain ⟨a, b⟩ := h1
    rw [EC_MIN_eq, EC_MAX_eq]
    rintro (hc | hc) <;> norm_num at hc <;> linarith
  · exact iff_of_true rfl (Or.inl h2)
  · exact iff_of_true rfl (Or.inr h3)
  · refine iff_of_false (by decide) ?_
    rintro (hc | hc)
    exacts [h2 hc, h3 hc]
  · refine iff_of_false (by decide) ?_
    rintro (hc | hc)
    exacts [h2 hc, h3 hc]

theorem assess_ec_warning_iff (v : ℚ) :
    (assess_ec v).1 = "warning" ↔
      ¬ (SystemConfig.EC_MIN ≤ v ∧ v ≤ SystemConfig.EC_MAX) ∧
      ¬ (v < SystemConfig.EC_MIN - 0.1 ∨ v > SystemConfig.EC_MAX + 0.1) := by
  unfold assess_ec
  split_ifs with h1 h2 h3 h4
  · exact iff_of_false (by decide) fun h => h.1 h1
  · exact iff_of_false (by decide) fun h => h.2 (Or.inl h2)
  · exact iff_of_false (by decide) fun h => h.2 (Or.inr h3)
  · refine iff_of_true rfl ⟨h1, ?_⟩
    rintro (hc | hc)
    exacts [h2 hc, h3 hc]
  · refine iff_of_true rfl ⟨h1, ?_⟩
    rintro (hc | hc)
    exacts [h2 hc, h3 hc]

theorem assess_ec_warning_msg (v : ℚ) (h : (assess_ec v).1 = "warning") :
    (v < SystemConfig.EC_MIN ∧
        (assess_ec v).2 = "↓ Below target. Consider adding nutrients") ∨
    (SystemConfig.EC_MAX < v ∧
        (assess_ec v).2 = "↑ Above target. Check concentration") := by
  unfold assess_ec at h ⊢
  split_ifs at h ⊢ with h1 h2 h3 h4
  · exact absurd h (by decide)
  · exact absurd h (by decide)
  · exact absurd h (by decide)
  · exact Or.inl ⟨h4, rfl⟩
  · push_neg at h4
    rcases not_and_or.mp h1 with hc | hc
    · exact absurd h4 hc
    · exact Or.inr ⟨lt_of_not_le hc, rfl⟩

theorem assess_temperature_optimal_iff (v : ℚ) :
    (assess_temperature v).1 = "optimal" ↔
      SystemConfig.TEMP_MIN ≤ v ∧ v ≤ SystemConfig.TEMP_MAX := by
  unfold assess_temperature
  split_ifs with h1 h2 h3 h4
  · exact iff_of_true rfl h1
  · exact iff_of_false (by decide) h1
  · exact iff_of_false (by decide) h1
  · exact iff_of_false (by decide) h1
  · exact iff_of_false (by decide) h1

theorem assess_temperature_danger_iff (v : ℚ) :
    (assess_temperature v).1 = "danger" ↔
      v < SystemConfig.TEMP_MIN - 2 ∨ v > SystemConfig.TEMP_MAX + 2 := by
  unfold assess_temperature
  split_ifs with h1 h2 h3 h4
  · refine iff_of_false (by decide) ?_
    rw [SystemConfig.TEMP_MIN, SystemConfig.TEMP_MAX] at h1
    obtain ⟨a, b⟩ := h1
    rw [SystemConfig.TEMP_MIN, SystemConfig.TEMP_MAX]
    rintro (hc | hc) <;> norm_num at hc <;> linarith
  · exact iff_of_true rfl (Or.inl h2)
  · exact iff_of_true rfl (Or.inr h3)
  · refine iff_of_false (by decide) ?_
    rintro (hc | hc)
    exacts [h2 hc, h3 hc]
  · refine iff_of_false (by decide) ?_
    rintro (hc | hc)
    exacts [h2 hc, h3 hc]

theorem assess_temperature_warning_iff (v : ℚ) :
    (assess_temperature v).1 = "warning" ↔
      ¬ (SystemConfig.TEMP_MIN ≤ v ∧ v ≤ SystemConfig.TEMP_MAX) ∧
      ¬ (v < SystemConfig.TEMP_MIN - 2 ∨ v > SystemConfig.TEMP_MAX + 2) := by
  unfold assess_temperature
  split_ifs with h1 h2 h3 h4
  · exact iff_of_false (by decide) fun h => h.1 h1
  · exact iff_of_false (by decide) fun h => h.2 (Or.inl h2)
  · exact iff_of_false (by decide) fun h => h.2 (Or.inr h3)
  · refine iff_of_true rfl ⟨h1, ?_⟩
    rintro (hc | hc)
    exacts [h2 hc, h3 hc]
  · refine iff_of_true rfl ⟨h1, ?_⟩
    rintro (hc | hc)
    exacts [h2 hc, h3 hc]

theorem assess_temperature_warning_msg (v : ℚ)
    (h : (assess_temperature v).1 = "warning") :
    (v < SystemConfig.TEMP_MIN ∧
        (assess_temperature v).2 = "↓ Below optimal. Consider heating") ∨
    (SystemConfig.TEMP_MAX < v ∧
        (assess_temperature v).2 = "↑ Above optimal. Improve cooling") := by
  unfold assess_temperature at h ⊢
  split_ifs at h ⊢ with h1 h2 h3 h4
  · exact absurd h (by decide)
  · exact absurd h (by decide)
  · exact absurd h (by decide)
  · exact Or.inl ⟨h4, rfl⟩
  · push_neg at h4
    rcases not_and_or.mp h1 with hc | hc
    · exact absurd h4 hc
    · exact Or.inr ⟨lt_of_not_le hc, rfl⟩

/-- C3: each assessor is the three-band classifier described by the spec:
`optimal` exactly on the inclusive tolerance band, `danger` exactly
strictly beyond the band extended by the metric's extra margin (0.2 pH,
0.1 mS/cm, 2 °C), `warning` otherwise with a direction-specific message;
in particular pH 5.8 is `optimal` and pH 6.2 is `danger`. -/
theorem assessors_three_band_classifier :
    (∀ v : ℚ,
      ((assess_ph v).1 = "optimal" ↔
        SystemConfig.PH_MIN ≤ v ∧ v ≤ SystemConfig.PH_MAX) ∧
      ((assess_ph v).1 = "danger" ↔
        v < SystemConfig.PH_MIN - 0.2 ∨ v > SystemConfig.PH_MAX + 0.2) ∧
      ((assess_ph v).1 = "warning" ↔
        ¬ (SystemConfig.PH_MIN ≤ v ∧ v ≤ SystemConfig.PH_MAX) ∧
        ¬ (v < SystemConfig.PH_MIN - 0.2 ∨ v > SystemConfig.PH_MAX + 0.2)) ∧
      ((assess_ph v).1 = "warning" →
        (v < SystemConfig.PH_MIN ∧
            (assess_ph v).2 = "↓ Below target. Monitor closely") ∨
        (SystemConfig.PH_MAX < v ∧
            (assess_ph v).2 = "↑ Above target. Monitor closely"))) ∧
    (∀ v : ℚ,
      ((assess_ec v).1 = "optimal" ↔
        SystemConfig.EC_MIN ≤ v ∧ v ≤ SystemConfig.EC_MAX) ∧
      ((assess_ec v).1 = "danger" ↔
        v < SystemConfig.EC_MIN - 0.1 ∨ v > SystemConfig.EC_MAX + 0.1) ∧
      ((assess_ec v).1 = "warning" ↔
        ¬ (SystemConfig.EC_MIN ≤ v ∧ v ≤ SystemConfig.EC_MAX) ∧
        ¬ (v < SystemConfig.EC_MIN - 0.1 ∨ v > SystemConfig.EC_MAX + 0.1)) ∧
      ((assess_ec v).1 = "warning" →
        (v < SystemConfig.EC_MIN ∧
            (assess_ec v).2 = "↓ Below target. Consider adding nutrients") ∨
        (SystemConfig.EC_MAX < v ∧
            (assess_ec v).2 = "↑ Above target. Check concentration"))) ∧
    (∀ v : ℚ,
      ((assess_temperature v).1 = "optimal" ↔
        SystemConfig.TEMP_MIN ≤ v ∧ v ≤ SystemConfig.TEMP_MAX) ∧
      ((assess_temperature v).1 = "danger" ↔
        v < SystemConfig.TEMP_MIN - 2 ∨ v > SystemConfig.TEMP_MAX + 2) ∧
      ((assess_temperature v).1 = "warning" ↔
        ¬ (SystemConfig.TEMP_MIN ≤ v ∧ v ≤ SystemConfig.TEMP_MAX) ∧
        ¬ (v < SystemConfig.TEMP_MIN - 2 ∨ v > SystemConfig.TEMP_MAX + 2)) ∧
      ((assess_temperature v).1 = "warning" →
        (v < SystemConfig.TEMP_MIN ∧
            (assess_temperature v).2 = "↓ Below optimal. Consider heating") ∨
        (SystemConfig.TEMP_MAX < v ∧
            (assess_temperature v).2 = "↑ Above optimal. Improve cooling"))) ∧
    (assess_ph 5.8).1 = "optimal" ∧ (assess_ph 6.2).1 = "danger" :=
  ⟨fun v => ⟨assess_ph_optimal_iff v, assess_ph_danger_iff v,
      assess_ph_warning_iff v, assess_ph_warning_msg v⟩,
   fun v => ⟨assess_ec_optimal_iff v, assess_ec_danger_iff v,
      assess_ec_warning_iff v, assess_ec_warning_msg v⟩,
   fun v => ⟨assess_temperature_optimal_iff v, assess_temperature_danger_iff v,
      assess_temperature_warning_iff v, assess_temperature_warning_msg v⟩,
   by norm_num [assess_ph, SystemConfig.PH_MIN, SystemConfig.PH_MAX,
      SystemConfig.PH_TARGET, SystemConfig.PH_TOLERANCE],
   by norm_num [assess_ph, SystemConfig.PH_MIN, SystemConfig.PH_MAX,
      SystemConfig.PH_TARGET, SystemConfig.PH_TOLERANCE]⟩

/-- C3 witness. -/
theorem assessors_three_band_classifier_witness :
    ((6:ℚ) < SystemConfig.PH_MIN ∧
        (assess_ph 6).2 = "↓ Below target. Monitor closely") ∨
    (SystemConfig.PH_MAX < 6 ∧
        (assess_ph 6).2 = "↑ Above target. Monitor closely") :=
  (assessors_three_band_classifier.1 6).2.2.2
    (by norm_num [assess_ph, SystemConfig.PH_MIN, SystemConfig.PH_MAX,
      SystemConfig.PH_TARGET, SystemConfig.PH_TOLERANCE])

/-- C4 counterexample: two readings dictionaries that differ only in
water level; the second sits farther from the midpoint of the configured
water-level band (deviation 7 vs 6) yet scores strictly higher (95.5 vs
92.5), because a level above the maximum scores 70 while a level below
the minimum scores 50. -/
theorem health_score_not_monotone_in_water_level :
    |(4:ℚ) - (SystemConfig.WATER_LEVEL_MIN + SystemConfig.WATER_LEVEL_MAX) / 2| <
      |(17:ℚ) - (SystemConfig.WATER_LEVEL_MIN + SystemConfig.WATER_LEVEL_MAX) / 2| ∧
    calculate_system_health (mkReadings 5.8 1.2 20 4) = some (92.5, "Excellent") ∧
    calculate_system_health (mkReadings 5.8 1.2 20 17) = some (95.5, "Excellent") ∧
    (92.5 : ℚ) < 95.5 := by
  refine ⟨by norm_num [SystemConfig.WATER_LEVEL_MIN, SystemConfig.WATER_LEVEL_MAX],
    ?_, ?_, by norm_num⟩ <;>
  · rw [calculate_system_health_mkReadings]
    norm_num [calculate_system_health_vals, SystemConfig.PH_TARGET,
      SystemConfig.PH_TOLERANCE, SystemConfig.EC_TARGET, SystemConfig.EC_TOLERANCE,
      SystemConfig.TEMP_MIN, SystemConfig.TEMP_MAX, SystemConfig.TEMP_OPTIMAL,
      SystemConfig.WATER_LEVEL_MIN, SystemConfig.WATER_LEVEL_MAX,
      pyRound, hround_eq]

/-- C4 amended: the composite score is monotonically non-increasing in
the absolute deviation of each of the three target-based metrics (pH,
conductivity, water temperature), other inputs held fixed; the water
level contribution depends only on its band, not on a deviation. -/
theorem health_score_monotone_in_target_metrics :
    (∀ p p' e t w : ℚ, |p - SystemConfig.PH_TARGET| ≤ |p' - SystemConfig.PH_TARGET| →
      (calculate_system_health_vals p' e t w).1 ≤
        (calculate_system_health_vals p e t w).1) ∧
    (∀ p e e' t w : ℚ, |e - SystemConfig.EC_TARGET| ≤ |e' - SystemConfig.EC_TARGET| →
      (calculate_system_health_vals p e' t w).1 ≤
        (calculate_system_health_vals p e t w).1) ∧
    (∀ p e t t' w : ℚ,
      |t - SystemConfig.TEMP_OPTIMAL| ≤ |t' - SystemConfig.TEMP_OPTIMAL| →
      (calculate_system_health_vals p e t' w).1 ≤
        (calculate_system_health_vals p e t w).1) := by
  refine ⟨fun p p' e t w h => ?_, fun p e e' t w h => ?_, fun p e t t' w h => ?_⟩
  · simp only [calculate_system_health_vals]
    apply pyRound_mono
    have key := subscore_anti SystemConfig.PH_TARGET SystemConfig.PH_TOLERANCE
      (by norm_num [SystemConfig.PH_TOLERANCE]) h
    linarith
  · simp only [calculate_system_health_vals]
    apply pyRound_mono
    have key := subscore_anti SystemConfig.EC_TARGET SystemConfig.EC_TOLERANCE
      (by norm_num [SystemConfig.EC_TOLERANCE]) h
    linarith
  · simp only [calculate_system_health_vals]
    apply pyRound_mono
    have key := subscore_anti SystemConfig.TEMP_OPTIMAL
      ((SystemConfig.TEMP_MAX - SystemConfig.TEMP_MIN) / 2)
      (by norm_num [SystemConfig.TEMP_MAX, SystemConfig.TEMP_MIN]) h
    linarith

/-- C4 amended witness. -/
theorem health_score_monotone_in_target_metrics_witness :
    |(5.8:ℚ) - SystemConfig.PH_TARGET| ≤ |(6:ℚ) - SystemConfig.PH_TARGET| ∧
    (calculate_system_health_vals 6 1.2 20 10).1 ≤
      (calculate_system_health_vals 5.8 1.2 20 10).1 :=
  ⟨by norm_num [SystemConfig.PH_TARGET],
   health_score_monotone_in_target_metrics.1 5.8 6 1.2 20 10
    (by norm_num [SystemConfig.PH_TARGET])⟩

/-- C5: every snapshot produced by `get_current_readings` - for any state
(call count), any noise outcome and any interpretation of the
transcendental functions - has its water level inside the configured
band, battery voltage at least 11.0 and conductivity at least 0.8, the
display rounding included. -/
theorem current_readings_invariants (env : Env) (now : ℚ) (nz : Noise)
    (st : SimState) :
    SystemConfig.WATER_LEVEL_MIN ≤
        (get_current_readings env now nz st).1.water_level ∧
    (get_current_readings env now nz st).1.water_level ≤
        SystemConfig.WATER_LEVEL_MAX ∧
    (11:ℚ) ≤ (get_current_readings env now nz st).1.battery_voltage ∧
    (0.8:ℚ) ≤ (get_current_readings env now nz st).1.ec := by
  simp only [get_current_readings]
  refine ⟨?_, ?_, ?_, ?_⟩
  · rw [show SystemConfig.WATER_LEVEL_MIN = (5:ℚ) by
      norm_num [SystemConfig.WATER_LEVEL_MIN]]
    calc (5:ℚ) = pyRound 1 5 := pyRound_one_five.symm
      _ ≤ _ := pyRound_mono 1 (le_max_left _ _)
  · rw [show SystemConfig.WATER_LEVEL_MAX = (15:ℚ) by
      norm_num [SystemConfig.WATER_LEVEL_MAX]]
    calc pyRound 1 (max 5 (min 15 (10 - ((st.step + 1 : ℕ) : ℚ) * 0.01 + nz.water_level)))
        ≤ pyRound 1 15 :=
          pyRound_mono 1 (max_le (by norm_num) (min_le_left _ _))
      _ = 15 := pyRound_one_fifteen
  · calc (11:ℚ) = pyRound 2 11 := pyRound_two_eleven.symm
      _ ≤ _ := pyRound_mono 2 (le_trans (by norm_num) (le_max_left _ _))
  · calc (0.8:ℚ) = pyRound 2 0.8 := pyRound_two_ec_floor.symm
      _ ≤ _ := pyRound_mono 2 (le_trans (by norm_num) (le_max_left _ _))

theorem simTrace_step_eq (env : Env) (times : ℕ → ℚ) (nzs : ℕ → Noise)
    (st0 : SimState) : ∀ n, (simTrace env times nzs st0 n).step = st0.step + n := by
  intro n
  induction n with
  | zero => rfl
  | succ k ih =>
    show (get_current_readings _ _ _ _).2.step = _
    simp only [get_current_readings]
    rw [ih]
    ring

/-- C6: the step counter starts at 0 at construction, each call to
`get_current_readings` increments it by exactly 1, and the counter
values observed over N successive calls on one instance are exactly
1, 2, ..., N in order. -/
theorem sequence_steps_are_one_to_N :
    (∀ (now : ℚ) (cfg : Config), (DataSimulator_init now cfg).step = 0) ∧
    (∀ (env : Env) (t : ℚ) (nz : Noise) (st : SimState),
      (get_current_readings env t nz st).2.step = st.step + 1) ∧
    (∀ (env : Env) (times : ℕ → ℚ) (nzs : ℕ → Noise) (now : ℚ)
        (cfg : Config) (N : ℕ),
      ((List.range N).map fun k =>
          (simTrace env times nzs (DataSimulator_init now cfg) (k + 1)).step) =
        (List.range N).map fun k => k + 1) :=
  ⟨fun _ _ => rfl, fun _ _ _ _ => rfl,
   fun env times nzs now cfg N =>
    List.map_congr_left fun k _ => by
      rw [simTrace_step_eq]
      show (DataSimulator_init now cfg).step + (k + 1) = k + 1
      rw [show (DataSimulator_init now cfg).step = 0 from rfl, Nat.zero_add]⟩

/-- C7: `get_historical_data(hours, points)` returns exactly `points`
rows, oldest first, with strictly increasing timestamps evenly spaced by
`hours / points`, and the oldest timestamp exactly `hours` before the
generation time. -/
theorem historical_data_shape (env : Env) (nzs : ℕ → Noise) (now hours : ℚ)
    (points : ℕ) (hh : 0 < hours) :
    (get_historical_data env nzs now hours points).length = points ∧
    (∀ i (h : i < (get_historical_data env nzs now hours points).length),
      (get_historical_data env nzs now hours points).get ⟨i, h⟩ =
        histRow env nzs now hours points i) ∧
    ((get_historical_data env nzs now hours points).map
      HistRow.timestamp).Pairwise (· < ·) ∧
    (∀ i, i + 1 < points →
      (histRow env nzs now hours points (i + 1)).timestamp -
        (histRow env nzs now hours points i).timestamp = hours / points) ∧
    (0 < points →
      (histRow env nzs now hours points 0).timestamp = now - hours) := by
  have hts : ∀ i : ℕ, (histRow env nzs now hours points i).timestamp =
      now - hours * (1 - (i : ℚ) / (points : ℚ)) := fun i => rfl
  refine ⟨by simp [get_historical_data], ?_, ?_, ?_, ?_⟩
  · intro i h
    simp [get_historical_data]
  · rcases Nat.eq_zero_or_pos points with hp | hp
    · subst hp
      simp [get_historical_data]
    · have hpq : (0:ℚ) < (points : ℚ) := by exact_mod_cast hp
      rw [get_historical_data, List.map_map, List.pairwise_map]
      refine (List.pairwise_lt_range points).imp ?_
      intro a b hab
      have ha : (a:ℚ) < b := by exact_mod_cast hab
      have key : (a:ℚ) / points < (b:ℚ) / points := by gcongr
      have hk := mul_lt_mul_of_pos_left key hh
      have e1 : hours * (1 - (a:ℚ)/points) = hours - hours * ((a:ℚ)/points) := by
        ring
      have e2 : hours * (1 - (b:ℚ)/points) = hours - hours * ((b:ℚ)/points) := by
        ring
      show (histRow env nzs now hours points a).timestamp <
        (histRow env nzs now hours points b).timestamp
      rw [hts, hts, e1, e2]
      linarith
  · intro i h
    have hp : 0 < points := lt_of_le_of_lt (Nat.zero_le _) h
    have hpq : ((points:ℚ)) ≠ 0 := Nat.cast_ne_zero.2 hp.ne'
    rw [hts, hts]
    push_cast
    field_simp
    ring
  · intro hp
    rw [hts]
    norm_num

/-- C7 witness. -/
theorem historical_data_shape_witness :
    (0:ℚ) < 6 ∧ (get_historical_data envId (fun _ => noise0) 0 6 3).length = 3 :=
  ⟨by norm_num,
   (historical_data_shape envId (fun _ => noise0) 0 6 3 (by norm_num)).1⟩

/-- For claim C8 only, this follows the specification's words rather than
the source: a historical row computed "by the same periodic-plus-noise
formulas as `get_current_readings` (same sinusoid frequencies and
amplitudes, same noise standard deviations, same depletion terms and
floors), with the point's index in the sequence substituted for the live
`sequence_step` as the phase input" (rounding left aside, as the spec
does not mention it). To be compared with `histRow`, the row the source
actually computes. -/
def histRowAsSpecified (env : Env) (nz : Noise) (timestamp : ℚ) (i : ℕ) :
    HistRow :=
  let hour : ℕ := env.hourOf timestamp
  let diurnal_factor : ℚ := env.diurnal hour
  { timestamp := timestamp
    pH := SystemConfig.PH_TARGET + env.sin ((i : ℚ) * 0.05) * 0.08 + nz.ph
    ec := max 0.8 (SystemConfig.EC_TARGET + (-0.001 * (i : ℚ) / 100) +
      env.sin ((i : ℚ) * 0.03) * 0.03 + nz.ec)
    water_temp := SystemConfig.TEMP_OPTIMAL + diurnal_factor * 1.5 + nz.water_temp
    air_temp := 25 + diurnal_factor * 4 + nz.air_temp
    humidity := 70 - diurnal_factor * 15 + nz.humidity }

/-- C8 counterexample: under the interpretation `envId` (sin modelled as
the identity) with zero noise, row 1 of the historical series has
pH 5.81 and conductivity 1.204, while the live formulas evaluated at
sequence step 1 (as the spec describes historical rows) give pH 5.804
and conductivity 1.20089: the formulas are not the same. -/
theorem historical_rows_not_live_formulas :
    (histRow envId (fun _ => noise0) 0 24 288 1).pH ≠
      (histRowAsSpecified envId noise0
        ((histRow envId (fun _ => noise0) 0 24 288 1).timestamp) 1).pH ∧
    (histRow envId (fun _ => noise0) 0 24 288 1).ec ≠
      (histRowAsSpecified envId noise0
        ((histRow envId (fun _ => noise0) 0 24 288 1).timestamp) 1).ec := by
  constructor <;>
    norm_num [histRow, histRowAsSpecified, envId, noise0, max_def,
      SystemConfig.PH_TARGET, SystemConfig.EC_TARGET]

/-- C8 amended: a historical row shares with `get_current_readings` only
the ambient formulas - water temperature, air temperature and humidity
agree with the live values (up to the display rounding, which the
historical path omits) whenever the noise draws coincide, the state's
temperature base is the configured optimum and the hour extracted from
the row's timestamp equals the hour of the live call; the pH and
conductivity formulas differ, as the counterexample shows, and the rows
carry no water level, battery voltage or uptime fields. -/
theorem historical_ambient_matches_live (env : Env) (nzs : ℕ → Noise)
    (now hours : ℚ) (points i : ℕ) (st : SimState) (t : ℚ) (nz : Noise)
    (hbase : st.temp_base = SystemConfig.TEMP_OPTIMAL)
    (hnz : nzs i = nz)
    (hhour : env.hourOf ((histRow env nzs now hours points i).timestamp) =
      env.hourOf t) :
    pyRound 1 (histRow env nzs now hours points i).water_temp =
      (get_current_readings env t nz st).1.water_temp ∧
    pyRound 1 (histRow env nzs now hours points i).air_temp =
      (get_current_readings env t nz st).1.air_temp ∧
    pyRound 1 (histRow env nzs now hours points i).humidity =
      (get_current_readings env t nz st).1.humidity := by
  have hh : env.hourOf (now - hours * (1 - (i : ℚ) / (points : ℚ))) =
      env.hourOf t := hhour
  refine ⟨?_, ?_, ?_⟩ <;>
    simp only [histRow, get_current_readings, hbase, hnz, hh]

/-- C8 amended witness. -/
theorem historical_ambient_matches_live_witness :
    pyRound 1 (histRow envId (fun _ => noise0) 0 24 288 3).water_temp =
      (get_current_readings envId 0 noise0
        (DataSimulator_init 0 defaultConfig)).1.water_temp :=
  (historical_ambient_matches_live envId (fun _ => noise0) 0 24 288 3
    (DataSimulator_init 0 defaultConfig) 0 noise0 rfl rfl rfl).1

/-- A configuration with a non-positive pH tolerance, used to show that
construction does not reject misconfiguration. -/
def badConfig : Config := { defaultConfig with PH_TOLERANCE := -1 }

/-- C9 counterexample: with a configuration whose pH tolerance is ≤ 0,
`DataSimulator.__init__` does not fail: it returns an initialized state,
and a subsequent reading call works normally (the step counter advances
to 1). No construction-time validation exists in the source. -/
theorem misconfiguration_not_rejected :
    badConfig.PH_TOLERANCE ≤ 0 ∧
    DataSimulator_init 0 badConfig =
      { step := 0, start_time := 0, ph_base := 5.8, ec_base := 1.2,
        temp_base := 20 } ∧
    (get_current_readings envId 0 noise0
      (DataSimulator_init 0 badConfig)).2.step = 1 := by
  refine ⟨by norm_num [badConfig, defaultConfig, SystemConfig.PH_TOLERANCE], ?_, rfl⟩
  simp only [DataSimulator_init, badConfig, defaultConfig, SimState.mk.injEq]
  norm_num [SystemConfig.PH_TARGET, SystemConfig.EC_TARGET,
    SystemConfig.TEMP_OPTIMAL]

/-- C9 amended: construction performs no validation at all - for every
configuration, valid or not, `__init__` yields a working generator whose
counter then behaves normally; separately, the shipped constants do
satisfy positive tolerances, `WATER_LEVEL_MIN ≤ WATER_LEVEL_MAX` and
`TEMP_MIN ≤ TEMP_MAX`, so the hard-coded configuration is never
misconfigured. -/
theorem construction_is_unvalidated :
    (∀ (env : Env) (times : ℕ → ℚ) (nzs : ℕ → Noise) (now : ℚ)
        (cfg : Config) (n : ℕ),
      (simTrace env times nzs (DataSimulator_init now cfg) n).step = n) ∧
    0 < defaultConfig.PH_TOLERANCE ∧ 0 < defaultConfig.EC_TOLERANCE ∧
    defaultConfig.WATER_LEVEL_MIN ≤ defaultConfig.WATER_LEVEL_MAX ∧
    defaultConfig.TEMP_MIN ≤ defaultConfig.TEMP_MAX := by
  refine ⟨fun env times nzs now cfg n => ?_, ?_, ?_, ?_, ?_⟩
  · rw [simTrace_step_eq]
    show 0 + n = n
    exact Nat.zero_add n
  · norm_num [defaultConfig, SystemConfig.PH_TOLERANCE]
  · norm_num [defaultConfig, SystemConfig.EC_TOLERANCE]
  · norm_num [defaultConfig, SystemConfig.WATER_LEVEL_MIN,
      SystemConfig.WATER_LEVEL_MAX]
  · norm_num [defaultConfig, SystemConfig.TEMP_MIN, SystemConfig.TEMP_MAX]

theorem health_none_of_pH_none (r : Readings) (h : r "pH" = none) :
    calculate_system_health r = none := by
  rw [calculate_system_health, h]
  rfl

theorem health_none_of_ec_none (r : Readings) (h : r "ec" = none) :
    calculate_system_health r = none := by
  rw [calculate_system_health]
  rcases hp : r "pH" with _ | p <;> simp [hp, h]

theorem health_none_of_water_temp_none (r : Readings)
    (h : r "water_temp" = none) : calculate_system_health r = none := by
  rw [calculate_system_health]
  rcases hp : r "pH" with _ | p <;> rcases he : r "ec" with _ | e <;>
    simp [hp, he, h]

theorem health_none_of_water_level_none (r : Readings)
    (h : r "water_level" = none) : calculate_system_health r = none := by
  rw [calculate_system_health]
  rcases hp : r "pH" with _ | p <;> rcases he : r "ec" with _ | e <;>
    rcases ht : r "water_temp" with _ | t <;> simp [hp, he, ht, h]

theorem histRow_toReadings_water_level_none (r : HistRow) :
    r.toReadings "water_level" = none := by
  unfold HistRow.toReadings
  rw [if_neg (by decide), if_neg (by decide), if_neg (by decide),
    if_neg (by decide), if_neg (by decide), if_neg (by decide)]

/-- C10: the scorer reads exactly the keys pH, ec, water_temp and
water_level - its result depends on no other key, and the absence of any
one of the four aborts it - while a historical row's dictionary carries
no water_level key, so scoring any historical row fails (KeyError,
modelled as `none`); the scorer only applies to live snapshots. -/
theorem scorer_reads_exactly_four_keys :
    (∀ r r' : Readings, r "pH" = r' "pH" → r "ec" = r' "ec" →
      r "water_temp" = r' "water_temp" → r "water_level" = r' "water_level" →
      calculate_system_health r = calculate_system_health r') ∧
    (∀ r : Readings, r "pH" = none → calculate_system_health r = none) ∧
    (∀ r : Readings, r "ec" = none → calculate_system_health r = none) ∧
    (∀ r : Readings, r "water_temp" = none → calculate_system_health r = none) ∧
    (∀ r : Readings, r "water_level" = none → calculate_system_health r = none) ∧
    (∀ (env : Env) (nzs : ℕ → Noise) (now hours : ℚ) (points i : ℕ),
      (histRow env nzs now hours points i).toReadings "water_level" = none) ∧
    (∀ (env : Env) (nzs : ℕ → Noise) (now hours : ℚ) (points i : ℕ),
      calculate_system_health
        ((histRow env nzs now hours points i).toReadings) = none) :=
  ⟨fun r r' h1 h2 h3 h4 => by
      rw [calculate_system_health, calculate_system_health, h1, h2, h3, h4],
   health_none_of_pH_none, health_none_of_ec_none,
   health_none_of_water_temp_none, health_none_of_water_level_none,
   fun env nzs now hours points i =>
    histRow_toReadings_water_level_none (histRow env nzs now hours points i),
   fun env nzs now hours points i =>
    health_none_of_water_level_none _
      (histRow_toReadings_water_level_none (histRow env nzs now hours points i))⟩

/-- C10 witness. -/
theorem scorer_reads_exactly_four_keys_witness :
    calculate_system_health (fun _ => none) = none :=
  scorer_reads_exactly_four_keys.2.1 (fun _ => none) rfl
